/-
Verification of the energy-logging repository's tariff engine and
supporting components, shallowly embedded in Lean 4.

Sources embedded here:
  * src/lib/abstract.py   — AbstractModule.write_tariff / process_tariff
  * src/elog.py           — main(): configuration load checks and the
                            supervisor monitoring loop
  * src/data/database/influxdb.py — Database.write_meter_reading /
                            write_meter_tariff retry loops
  * src/modules/goodwe.py — calculate_crc / append_crc and
                            Module._check_valid_response

Numeric conventions: Python floats are modelled as exact rationals (ℚ);
timestamps (milliseconds since the epoch) are modelled as ℤ.  Python code
that can raise an exception is modelled as a function into Option, with
`none` standing for a raised exception.
-/
import Mathlib

namespace Energy

/-! ## String parsing helpers (Python `int()`, `float()`, `str.strip('%')`,
`str.split`) -/

/-- Models Python `str.split(c)` on a character list: splits at every
occurrence of `c`, keeping empty fields. -/
def splitOnChar (c : Char) : List Char → List (List Char)
  | [] => [[]]
  | x :: xs =>
    let r := splitOnChar c xs
    if x = c then [] :: r
    else
      match r with
      | [] => [[x]]
      | g :: gs => (x :: g) :: gs

/-- Accumulating decimal-digit reader: `none` on the first non-digit. -/
def digitsValAux : ℕ → List Char → Option ℕ
  | acc, [] => some acc
  | acc, ch :: cs =>
    if ch.isDigit then digitsValAux (acc * 10 + (ch.toNat - 48)) cs else none

/-- Models Python `int()` restricted to unsigned decimal digit strings:
`none` on the empty string or any non-digit character. -/
def parseNatChars : List Char → Option ℕ
  | [] => none
  | l => digitsValAux 0 l

/-- Models Python `int()` on decimal literals with an optional sign. -/
def parseIntChars : List Char → Option ℤ
  | '-' :: rest => (parseNatChars rest).map (fun n => -(n : ℤ))
  | '+' :: rest => (parseNatChars rest).map (fun n => (n : ℤ))
  | l => (parseNatChars l).map (fun n => (n : ℤ))

/-- Unsigned part of Python `float()` on plain decimal literals:
digits, optionally with a decimal point (`"20"`, `"17.5"`, `"1."`,
`".5"`). -/
def parseUDecimal (l : List Char) : Option ℚ :=
  match splitOnChar '.' l with
  | [a] => (parseNatChars a).map (fun n => (n : ℚ))
  | [a, b] =>
    if a.isEmpty && b.isEmpty then none
    else do
      let an ← if a.isEmpty then some 0 else parseNatChars a
      let bn ← if b.isEmpty then some 0 else parseNatChars b
      pure ((an : ℚ) + (bn : ℚ) / ((10 : ℚ) ^ b.length))
  | _ => none

/-- Models Python `float()` on plain decimal literals with an optional
sign. Returns `none` where `float()` would raise `ValueError`. -/
def parseDecimalChars : List Char → Option ℚ
  | '-' :: rest => (parseUDecimal rest).map Neg.neg
  | '+' :: rest => parseUDecimal rest
  | l => parseUDecimal l

/-- Models Python `str.strip('%')`: removes leading and trailing `%`
characters. -/
def stripPercent (l : List Char) : List Char :=
  ((l.dropWhile (· = '%')).reverse.dropWhile (· = '%')).reverse

/-- Models `1 + float(tax.strip('%')) / 100.0` from
`AbstractModule.process_tariff` (src/lib/abstract.py line 180). -/
def parseTax (s : String) : Option ℚ :=
  (parseDecimalChars (stripPercent s.toList)).map (fun t => 1 + t / 100)

/-- Models `h, m, s = start.split(':'); int(h) * 3600 + int(m) * 60 + int(s)`
from `AbstractModule.process_tariff` (src/lib/abstract.py lines 182–183).
`none` where the unpacking or `int()` would raise. -/
def parseStart (s : String) : Option ℤ :=
  match splitOnChar ':' s.toList with
  | [h, m, sec] => do
    let hi ← parseIntChars h
    let mi ← parseIntChars m
    let si ← parseIntChars sec
    pure (hi * 3600 + mi * 60 + si)
  | _ => none

/-- Models `int((kwargs['time'] / 1000) % 86400)` (src/lib/abstract.py
line 184): the reading's time-of-day in seconds.  For an integer number of
milliseconds this float computation equals floor-division by 1000 followed
by a Euclidean remainder. -/
def timeOfDay (time : ℤ) : ℤ :=
  (Int.ediv time 1000).emod 86400

/-! ## Data model -/

/-- One entry of a tariff definition's `rate` list (a rate window), as read
from configuration: `start` is the raw `H:M:S` string, `tax` the raw
percentage string (e.g. `"20%"`), `amount` the per-unit price. `rateid`
carries the configured value, `""` when absent (Python
`tariffs['rate'][i].get('rateid', '')`). -/
structure RateEntry where
  start : String
  amount : ℚ
  tax : String
  unit : String
  rateid : String
deriving DecidableEq, Repr

/-- A tariff definition as consumed by `write_tariff`: the nested
`meter` object's `id`, `source` and `meter_values` fields (the latter
defaulting to `"both"` when absent), plus `type`, `name` and the ordered
`rate` list. -/
structure TariffDef where
  meterId : String
  source : String
  meterValues : String
  type : String
  name : String
  rate : List RateEntry
deriving DecidableEq, Repr

/-- The per-meter `self.lasttariff[id]` record stored by `process_tariff`
(src/lib/abstract.py lines 187–197).  The `tariff` label, built in Python
as `str(amount) + '/' + unit`, is modelled as the pair of its two
constituents. -/
structure LastTariff where
  time : ℤ
  reading : ℚ
  read_at : ℤ
  rate : ℚ
  tariff : ℚ × String
  tax : String
  type : String
  name : String
  rateid : String
deriving DecidableEq, Repr

/-- A meter reading as passed to `write_tariff` via `**kwargs`. -/
structure Reading where
  time : ℤ
  source : String
  id : String
  reading : ℚ
deriving DecidableEq, Repr

/-- The `tariff` dict built in `write_tariff` (src/lib/abstract.py lines
134–143) and emitted through the `CreateMeterTariff` mutation when
`amount > 0`. -/
structure Charge where
  time : ℤ
  id : String
  amount : ℚ
  tariff : ℚ × String
  tax : String
  type : String
  name : String
  rateid : String
deriving DecidableEq, Repr

/-! ## Rate selection (`process_tariff`) -/

/-- The body of the reverse `for` loop of `process_tariff`
(src/lib/abstract.py lines 178–185), run from index `i` downwards: at each
index compute the tax multiplier, effective rate and window start; stop at
the first index whose start is `<= timeOfDay`.  A Python `for` loop that
completes without `break` leaves the loop variable at its last value, `0`,
with `rate` holding the value computed in that final iteration — so the
fall-through case returns index `0` and its rate.  `none` models an
exception raised while parsing. -/
def selectLoop (rates : List RateEntry) (tod : ℤ) : ℕ → Option (ℕ × ℚ)
  | 0 => do
    let e ← rates[0]?
    let tx ← parseTax e.tax
    let r := e.amount / 3600 * tx
    let _ ← parseStart e.start
    pure (0, r)
  | i + 1 => do
    let e ← rates[i + 1]?
    let tx ← parseTax e.tax
    let r := e.amount / 3600 * tx
    let rs ← parseStart e.start
    if rs ≤ tod then pure (i + 1, r) else selectLoop rates tod i

/-- Models `AbstractModule.process_tariff` (src/lib/abstract.py lines 176–199):
selects the applicable rate window for the reading's time-of-day and
returns the new `self.lasttariff[kwargs['id']]` record.  `none` models a
raised exception (malformed `start`/`tax` string encountered during the
loop, or an empty `rate` list, where the unbound loop variable `i` raises
`NameError`). -/
def process_tariff (t : TariffDef) (time : ℤ) (reading : ℚ) : Option LastTariff := do
  let sel ← selectLoop t.rate (timeOfDay time) (t.rate.length - 1)
  let e ← t.rate[sel.1]?
  pure { time := time
         reading := reading
         read_at := time
         rate := sel.2
         tariff := (e.amount, e.unit)
         tax := e.tax
         type := t.type
         name := t.name
         rateid := e.rateid }

/-! ## Tariff accumulation (`write_tariff`) -/

/-- The per-meter state table `self.lasttariff` of `AbstractModule`
(src/lib/abstract.py line 85), keyed by meter id. -/
def TariffState : Type := String → Option LastTariff

/-- The `tariff` dict assembled by `write_tariff` (src/lib/abstract.py
lines 133–143) from the stored state and the new reading:
`delta = (kwargs['time'] - lasttariff[id]['read_at']) / 1000` and
`amount = abs((kwargs['reading'] / 1000) * lasttariff[id]['rate'] * delta)`. -/
def chargeOf (lt : LastTariff) (kw : Reading) : Charge :=
  let delta : ℚ := ((kw.time : ℚ) - (lt.read_at : ℚ)) / 1000
  { time := lt.time
    id := kw.id
    amount := |kw.reading / 1000 * lt.rate * delta|
    tariff := lt.tariff
    tax := lt.tax
    type := lt.type
    name := lt.name
    rateid := lt.rateid }

/-- The charge-emission half of `write_tariff` (src/lib/abstract.py lines
132–160): if prior state exists for the meter id, build the charge and
emit it through the `CreateMeterTariff` mutation only when
`tariff['amount'] > 0`. -/
def emittedCharge (st : TariffState) (kw : Reading) : Option Charge :=
  match st kw.id with
  | none => none
  | some lt =>
    let c := chargeOf lt kw
    if 0 < c.amount then some c else none

/-- The `meter_values` polarity filter of `write_tariff`
(src/lib/abstract.py lines 164–174): an `if/elif` chain on the
`meter_values` string (default `"both"` is applied when the config key is
absent, before this function is reached). -/
def policyApplies (mv : String) (reading : ℚ) : Bool :=
  if mv = "negative" ∧ reading < 0 then true
  else if mv = "positive" ∧ 0 ≤ reading then true
  else if mv = "both" then true
  else false

/-- One iteration of the tariff-definition loop in `write_tariff`: when the
polarity policy matches, `process_tariff` is invoked and rewrites
`self.lasttariff[kwargs['id']]`; otherwise the state is untouched.
`none` propagates an exception raised inside `process_tariff`. -/
def routeStep (kw : Reading) (s : TariffState) (d : TariffDef) : Option TariffState :=
  if policyApplies d.meterValues kw.reading then
    (process_tariff d kw.time kw.reading).map (fun lt => Function.update s kw.id (some lt))
  else some s

/-- The tariff-definition loop of `write_tariff` (src/lib/abstract.py
lines 162–174): iterate the definitions whose `meter.id` and
`meter.source` match the reading, applying `routeStep` to each in order
(last write wins on the shared state entry). -/
def routeUpdates (defs : List TariffDef) (st : TariffState) (kw : Reading) :
    Option TariffState :=
  (defs.filter (fun d => d.meterId = kw.id ∧ d.source = kw.source)).foldlM (routeStep kw) st

/-- Models `AbstractModule.write_tariff` (src/lib/abstract.py lines 131–174):
first the charge for the elapsed interval is computed and emitted from the
previously stored state, then the matching tariff definitions update the
state.  The first component is the emitted charge (`none` when no prior
state exists or `amount <= 0`); the second is the state after the loop
(`none` models an exception raised while processing a definition — the
emission in the first component has already happened by then). -/
def write_tariff (defs : List TariffDef) (st : TariffState) (kw : Reading) :
    Option Charge × Option TariffState :=
  (emittedCharge st kw, routeUpdates defs st kw)

/-! ## Sink retry loops (`Database.write_meter_reading` /
`Database.write_meter_tariff`, src/data/database/influxdb.py) -/

/-- Outcome of one attempt of the body of the `while True` retry loop
shared by `Database.write_meter_reading` (lines 99–116) and
`Database.write_meter_tariff` (lines 174–191): the line-format conversion
plus `self.connection.write(...)`. -/
inductive WriteAttempt
  | success      -- write succeeded, `break`
  | connError    -- requests.exceptions.ConnectionError was raised
  | otherError   -- any other exception was raised
  | writeFalse   -- `connection.write(...)` returned False
deriving DecidableEq, Repr

/-- Observable result of running the retry loop for a bounded number of
iterations. -/
inductive WriteResult
  | ok (attempt : ℕ) (sleptSeconds : ℕ)  -- returned normally after a successful write
  | fatal                                -- raised RuntimeError to the caller
  | retrying                             -- still inside the loop
deriving DecidableEq, Repr

/-- Models `time.sleep(self.RETRY_TIMEOUT * 1000)` with `RETRY_TIMEOUT = 5`
(src/data/database/influxdb.py lines 34, 112, 187): the fixed
between-retry delay, in seconds. -/
def RETRY_SLEEP_SECONDS : ℕ := 5 * 1000

/-- The `while True` retry loop of `Database.write_meter_reading` and
`Database.write_meter_tariff` (src/data/database/influxdb.py lines 96–116
and 171–191; the two bodies are identical): attempt the write; on success
`break` (return normally); on `ConnectionError` sleep the fixed delay and
loop again; on a `False` return or any other exception raise
`RuntimeError`.  `fuel` bounds how many iterations we observe; `k` is the
index of the current attempt and `slept` the seconds slept so far. -/
def writeRetryLoop (attempts : ℕ → WriteAttempt) : ℕ → ℕ → ℕ → WriteResult
  | 0, _, _ => .retrying
  | fuel + 1, k, slept =>
    match attempts k with
    | .success => .ok k slept
    | .connError => writeRetryLoop attempts fuel (k + 1) (slept + RETRY_SLEEP_SECONDS)
    | .otherError => .fatal
    | .writeFalse => .fatal

/-! ## Supervisor monitoring loop (src/elog.py main) -/

/-- Models `config.get('max_queue_size', 1000)` (src/elog.py line 76). -/
def defaultMaxQueueSize (cfg : Option ℕ) : ℕ := cfg.getD 1000

/-- Models the list comprehension over oversize queues
(src/elog.py line 285): queues are `(name, current depth)` pairs. -/
def oversizeQueues (queues : List (String × ℕ)) (maxSize : ℕ) : List String :=
  (queues.filter (fun q => maxSize ≤ q.2)).map Prod.fst

/-- What one iteration of the supervisor's monitoring loop decides
(src/elog.py lines 280–296): `break` on an oversize queue, else `break`
on a started module whose thread is no longer running, else keep
looping. -/
inductive TickOutcome
  | overflow (names : List String)
  | deadModules (names : List String)
  | keepRunning
deriving DecidableEq, Repr

/-- One monitoring tick of the supervisor loop in `main` (src/elog.py
lines 280–296). `started` models `started_threads`, `running` the names
from `threading.enumerate()`. -/
def monitorTick (queues : List (String × ℕ)) (maxSize : ℕ)
    (started running : List String) : TickOutcome :=
  let oq := oversizeQueues queues maxSize
  if oq ≠ [] then .overflow oq
  else
    let dead := started.filter (fun t => t ∉ running)
    if dead ≠ [] then .deadModules dead else .keepRunning

/-- The `finally` block of `main` (src/elog.py lines 302–309): every
thread that is still alive and whose name is in `started_threads` gets
`thread.terminate.set()` followed by `thread.join()`. -/
def shutdownTargets (started running : List String) : List String :=
  running.filter (fun t => t ∈ started)

/-- Note: `multiprocessing.Queue()` is created with no `maxsize`
(src/elog.py line 208); a push appends unconditionally — producers
never block. -/
def queuePushAll {α : Type} (q : List α) (es : List α) : List α := q ++ es

/-! ## Configuration load checks (src/elog.py main, lines 102–131) -/

/-- A sensor entry of a measurement in the configuration file; `type` is
resolved against `lib.schema` via `getattr` at load time. -/
structure SensorCfg where
  name : String
  type : Option String
deriving DecidableEq, Repr

/-- A measurement entry of the configuration file. -/
structure MeasurementCfg where
  name : String
  sensor : List SensorCfg
deriving DecidableEq, Repr

/-- The slice of the configuration consumed by the checks in `main` plus
the per-module tariff definitions that `AbstractModule` later consumes
(spec §6: configuration supplies `{id, source, module, tariff: [...]}`
per meter).  The load checks below read only `measurement`. -/
structure Config where
  max_queue_size : Option ℕ
  measurement : List MeasurementCfg
  tariff : List TariffDef
deriving DecidableEq, Repr

/-- The class names defined in src/lib/schema.py, against which
`getattr(module, sensor['type'])` is resolved (src/elog.py lines 119–120). -/
def schemaTypes : List String := ["Point", "Measurement", "Test", "Query"]

/-- The inner sensor loop of `main` (src/elog.py lines 111–126): a sensor
name already seen raises immediately; a missing `type` raises `TypeError`
(re-raised as `RuntimeError`); an unknown type raises `AttributeError`
(propagating to the outer handler).  Returns the updated seen-set, or
`none` on abort. -/
def scanSensors (seen : List String) : List SensorCfg → Option (List String)
  | [] => some seen
  | s :: rest =>
    if s.name ∈ seen then none
    else
      match s.type with
      | none => none
      | some t => if t ∈ schemaTypes then scanSensors (s.name :: seen) rest else none

/-- The measurement loop of `main` (src/elog.py lines 107–126): collect
duplicate measurement names (fatal only after the loop, line 128–131),
aborting immediately on a sensor error. Returns the duplicate flag, or
`none` on abort. -/
def scanMeasurements (mnames sensors : List String) (dup : Bool) :
    List MeasurementCfg → Option Bool
  | [] => some dup
  | m :: rest =>
    let dup' := dup || (m.name ∈ mnames)
    match scanSensors sensors m.sensor with
    | none => none
    | some sensors' => scanMeasurements (m.name :: mnames) sensors' dup' rest

/-- Whether configuration load succeeds: the measurement/sensor checks of
`main` (src/elog.py lines 102–131) pass and no duplicate measurement was
found.  No other part of the configuration — in particular no tariff rate
window — is validated at load time. -/
def configLoadOk (cfg : Config) : Bool :=
  match scanMeasurements [] [] false cfg.measurement with
  | none => false
  | some dup => !dup

/-! ## GoodWe protocol CRC (src/modules/goodwe.py) -/

/-- Models `calculate_crc` (src/modules/goodwe.py lines 28–32): the plain sum of
the byte values of the buffer. -/
def calculate_crc (buffer : List ℕ) : ℕ := buffer.foldl (· + ·) 0

/-- Models `int.to_bytes(2, byteorder='big')`: the two big-endian bytes of `n`,
or `none` where Python raises `OverflowError` (`n >= 65536`). -/
def toBytes2BE (n : ℕ) : Option (List ℕ) :=
  if n < 65536 then some [n / 256, n % 256] else none

/-- Models `append_crc` (src/modules/goodwe.py lines 35–36):
`buffer.extend(calculate_crc(buffer).to_bytes(2, byteorder='big'))`. -/
def append_crc (buffer : List ℕ) : Option (List ℕ) :=
  (toBytes2BE (calculate_crc buffer)).map (fun bs => buffer ++ bs)

/-- The receiver's CRC test in `Module._check_valid_response`
(src/modules/goodwe.py line 307):
`buffer[i - 2] * 256 + buffer[i - 1] == calculate_crc(buffer[0:i - 2])`. -/
def crcEquationHolds (buffer : List ℕ) (i : ℕ) : Bool :=
  buffer.getD (i - 2) 0 * 256 + buffer.getD (i - 1) 0 == calculate_crc (buffer.take (i - 2))

/-! ## Concrete example data used by witnesses and counterexamples -/

/-- Decidable form of "this window's `start` parses and lies strictly
after the time-of-day `tod`". -/
def windowStartsAfter (tod : ℤ) (e : RateEntry) : Bool :=
  match parseStart e.start with
  | some s => decide (tod < s)
  | none => false

/-- Decidable "ascending `startOfDay`" comparison between two rate
windows: whenever both `start` strings parse, the first is not later than
the second. -/
def rateLE (a b : RateEntry) : Bool :=
  match parseStart a.start, parseStart b.start with
  | some sa, some sb => decide (sa ≤ sb)
  | _, _ => true

/-- The empty `self.lasttariff` table a fresh module starts with. -/
def emptyState : TariffState := fun _ => none

/-- A tariff definition with two rate windows, both starting strictly
after midnight, used to exercise the fall-through branch of the rate
selection loop. -/
def C1def : TariffDef :=
  { meterId := "m", source := "s", meterValues := "both", type := "expense", name := "t",
    rate := [{ start := "01:00:00", amount := 1, tax := "0%", unit := "kWh", rateid := "r0" },
             { start := "02:00:00", amount := 2, tax := "0%", unit := "kWh", rateid := "r1" }] }

/-- The spec's concrete scenario tariff: one window starting at midnight,
amount 10 per unit, 20% tax. -/
def C2defs : List TariffDef :=
  [{ meterId := "m", source := "s", meterValues := "both", type := "expense", name := "t",
     rate := [{ start := "00:00:00", amount := 10, tax := "20%", unit := "kWh", rateid := "" }] }]

/-- First reading of the spec's concrete scenario: 1000 W at t = 0 ms. -/
def C2r1 : Reading := { time := 0, source := "s", id := "m", reading := 1000 }

/-- Second reading of the spec's concrete scenario: 2000 W at
t = 3600000 ms (one hour later). -/
def C2r2 : Reading := { time := 3600000, source := "s", id := "m", reading := 2000 }

/-- The state stored after the first scenario reading: effective rate
10 / 3600 * 1.2 = 1/300 per second. -/
def C2lt : LastTariff :=
  { time := 0, reading := 1000, read_at := 0, rate := 1/300,
    tariff := (10, "kWh"), tax := "20%", type := "expense", name := "t", rateid := "" }

/-- State table holding `C2lt` for meter `"m"`. -/
def C2st : TariffState := fun k => if k = "m" then some C2lt else none

/-- A tariff definition whose `meter_values` policy is `"positive"`:
negative readings must not update its state. -/
def C3defs : List TariffDef :=
  [{ meterId := "m", source := "s", meterValues := "positive", type := "expense", name := "t",
     rate := [{ start := "00:00:00", amount := 3600, tax := "0%", unit := "kWh", rateid := "r" }] }]

/-- The state the `C3defs` tariff stores after a positive reading at
t = 0: effective rate 3600 / 3600 * 1 = 1. -/
def C3lt : LastTariff :=
  { time := 0, reading := 1000, read_at := 0, rate := 1,
    tariff := (3600, "kWh"), tax := "0%", type := "expense", name := "t", rateid := "r" }

/-- State table holding `C3lt` for meter `"m"`. -/
def C3st : TariffState := fun k => if k = "m" then some C3lt else none

/-- A positive reading matching the `"positive"` policy of `C3defs`. -/
def C3pos : Reading := { time := 0, source := "s", id := "m", reading := 1000 }

/-- A negative reading violating the `"positive"` policy of `C3defs`. -/
def C3neg : Reading := { time := 1000, source := "s", id := "m", reading := -2000 }

/-- Stored state whose `read_at` (2000 ms) lies after the out-of-order
reading used against it. -/
def C4lt : LastTariff :=
  { time := 2000, reading := 500, read_at := 2000, rate := 1,
    tariff := (3600, "kWh"), tax := "0%", type := "expense", name := "t", rateid := "r" }

/-- State table holding `C4lt` for meter `"m"`. -/
def C4st : TariffState := fun k => if k = "m" then some C4lt else none

/-- An out-of-order reading: its time (1000 ms) precedes the stored
`read_at` (2000 ms). -/
def C4out : Reading := { time := 1000, source := "s", id := "m", reading := 1000 }

/-- A duplicate reading: its time equals the stored `read_at`. -/
def C4dup : Reading := { time := 2000, source := "s", id := "m", reading := 1000 }

/-- Two rate windows sorted ascending by start (00:00:00 then 12:00:00). -/
def C5rates : List RateEntry :=
  [{ start := "00:00:00", amount := 1, tax := "0%", unit := "kWh", rateid := "r0" },
   { start := "12:00:00", amount := 2, tax := "0%", unit := "kWh", rateid := "r1" }]

/-- A rate window whose `start` string is not of the `H:M:S` form. -/
def C7badEntry : RateEntry :=
  { start := "bogus", amount := 10, tax := "20%", unit := "kWh", rateid := "" }

/-- A tariff definition containing the malformed rate window. -/
def C7badDef : TariffDef :=
  { meterId := "m", source := "s", meterValues := "both", type := "expense", name := "t",
    rate := [C7badEntry] }

/-- A configuration whose measurements are well-formed but whose tariff
carries a malformed rate start string. -/
def C7cfg : Config :=
  { max_queue_size := none,
    measurement := [{ name := "meas", sensor := [{ name := "sens", type := some "Measurement" }] }],
    tariff := [C7badDef] }

/-! ## Helper lemmas -/

/-- When every window at index at most `i` parses and starts strictly
after `tod`, the reverse loop falls through and yields index `0` with the
rate of the first window. -/
lemma selectLoop_all_late (rates : List RateEntry) (tod : ℤ) :
    ∀ i, i < rates.length →
    (∀ j, j ≤ i → ∀ e, rates[j]? = some e →
        (parseTax e.tax).isSome ∧ windowStartsAfter tod e = true) →
    ∃ e0 tx, rates[0]? = some e0 ∧ parseTax e0.tax = some tx ∧
      selectLoop rates tod i = some (0, e0.amount / 3600 * tx) := by
  intro i
  induction i with
  | zero =>
    intro hi hall
    have he0 : rates[0]? = some (rates[0]) := List.getElem?_eq_getElem hi
    obtain ⟨htx, hafter⟩ := hall 0 le_rfl _ he0
    obtain ⟨tx, htx⟩ := Option.isSome_iff_exists.mp htx
    have hs : ∃ s, parseStart (rates[0]).start = some s := by
      unfold windowStartsAfter at hafter
      cases h : parseStart (rates[0]).start with
      | none => rw [h] at hafter; simp at hafter
      | some s => exact ⟨s, rfl⟩
    obtain ⟨s, hs⟩ := hs
    exact ⟨rates[0], tx, he0, htx, by simp [selectLoop, he0, htx, hs]⟩
  | succ i ih =>
    intro hi hall
    have he : rates[i + 1]? = some (rates[i + 1]) := List.getElem?_eq_getElem hi
    obtain ⟨htx, hafter⟩ := hall (i + 1) le_rfl _ he
    obtain ⟨tx, htx⟩ := Option.isSome_iff_exists.mp htx
    have hs : ∃ s, parseStart (rates[i + 1]).start = some s ∧ tod < s := by
      unfold windowStartsAfter at hafter
      cases h : parseStart (rates[i + 1]).start with
      | none => rw [h] at hafter; simp at hafter
      | some s => rw [h] at hafter; simp at hafter; exact ⟨s, rfl, hafter⟩
    obtain ⟨s, hs, hlt⟩ := hs
    have hcond : ¬(s ≤ tod) := by omega
    obtain ⟨e0, tx0, he0, htx0, hsel⟩ := ih (by omega)
      (fun j hj e hje => hall j (by omega) e hje)
    refine ⟨e0, tx0, he0, htx0, ?_⟩
    simp [selectLoop, he, htx, hs, hcond, hsel]

/-- A single `routeStep` never writes a state key other than the
reading's meter id. -/
lemma routeStep_offkey (kw : Reading) (s s2 : TariffState) (d : TariffDef)
    (h : routeStep kw s d = some s2) : ∀ k, k ≠ kw.id → s2 k = s k := by
  intro k hk
  unfold routeStep at h
  split at h
  · cases hp : process_tariff d kw.time kw.reading with
    | none => rw [hp] at h; simp at h
    | some lt =>
      rw [hp] at h
      simp at h
      subst h
      exact Function.update_noteq hk _ _
  · simp at h
    subst h
    rfl

/-- The tariff-definition fold never writes a state key other than the
reading's meter id. -/
lemma foldlM_routeStep_offkey (kw : Reading) :
    ∀ (l : List TariffDef) (s s2 : TariffState),
      l.foldlM (routeStep kw) s = some s2 → ∀ k, k ≠ kw.id → s2 k = s k := by
  intro l
  induction l with
  | nil =>
    intro s s2 h k hk
    simp [List.foldlM_nil] at h
    subst h
    rfl
  | cons d rest ih =>
    intro s s2 h k hk
    rw [List.foldlM_cons] at h
    cases h1 : routeStep kw s d with
    | none => rw [h1] at h; simp at h
    | some smid =>
      rw [h1] at h
      simp at h
      calc s2 k = smid k := ih smid s2 h k hk
        _ = s k := routeStep_offkey kw s smid d h1 k hk

/-- Folding `routeStep` over definitions that all fail the polarity
policy leaves the state untouched. -/
lemma foldlM_routeStep_skip (kw : Reading) :
    ∀ (l : List TariffDef) (s : TariffState),
      (∀ d ∈ l, policyApplies d.meterValues kw.reading = false) →
      l.foldlM (routeStep kw) s = some s := by
  intro l
  induction l with
  | nil => intro s _; simp [List.foldlM_nil]
  | cons d rest ih =>
    intro s h
    rw [List.foldlM_cons]
    have hd := h d (List.mem_cons_self d rest)
    unfold routeStep
    rw [hd]
    simp
    exact ih s (fun d2 hd2 => h d2 (List.mem_cons_of_mem _ hd2))

/-- Invariant of the reverse selection loop started at index `i`: the
returned index is at most `i`, and every window strictly between the
returned index and `i` starts strictly after `tod`. -/
lemma selectLoop_break_spec (rates : List RateEntry) (tod : ℤ) :
    ∀ i k r, selectLoop rates tod i = some (k, r) →
      k ≤ i ∧
      ∀ j, k < j → j ≤ i → ∀ e : RateEntry, rates[j]? = some e →
        ∀ sj, parseStart e.start = some sj → tod < sj := by
  intro i
  induction i with
  | zero =>
    intro k r h
    simp only [selectLoop, Option.bind_eq_bind, Option.bind_eq_some, Option.pure_def,
      Option.some.injEq, Prod.mk.injEq] at h
    obtain ⟨e, he, tx, htx, s, hs, hk, hr⟩ := h
    subst hk
    exact ⟨le_rfl, fun j hj1 hj2 => by omega⟩
  | succ i ih =>
    intro k r h
    unfold selectLoop at h
    simp only [Option.bind_eq_bind, Option.bind_eq_some] at h
    obtain ⟨e, he, tx, htx, rs, hrs, hif⟩ := h
    by_cases hc : rs ≤ tod
    · rw [if_pos hc] at hif
      simp only [Option.pure_def, Option.some.injEq, Prod.mk.injEq] at hif
      obtain ⟨hk, hr⟩ := hif
      subst hk
      exact ⟨le_rfl, fun j hj1 hj2 => by omega⟩
    · rw [if_neg hc] at hif
      obtain ⟨hki, hclause⟩ := ih k r hif
      refine ⟨by omega, ?_⟩
      intro j hj1 hj2 e2 he2 sj hsj
      by_cases hji : j ≤ i
      · exact hclause j hj1 hji e2 he2 sj hsj
      · have hj : j = i + 1 := by omega
        subst hj
        rw [he] at he2
        cases he2
        rw [hrs] at hsj
        cases hsj
        omega

/-- A selection loop whose topmost examined window has an unparseable
start string raises regardless of the time-of-day: the loop visits the
highest index first and parses before it compares. -/
lemma selectLoop_top_bad (rates : List RateEntry) (tod : ℤ) (i : ℕ) (e : RateEntry)
    (he : rates[i]? = some e) (hbad : parseStart e.start = none) :
    selectLoop rates tod i = none := by
  cases i with
  | zero =>
    unfold selectLoop
    rw [he]
    cases htx : parseTax e.tax <;> simp [htx, hbad]
  | succ i =>
    unfold selectLoop
    rw [he]
    cases htx : parseTax e.tax <;> simp [htx, hbad]

/-- Running the retry loop from attempt `start`: `k` consecutive
connection errors followed by a success return normally, after exactly one
fixed-length sleep per failed attempt. -/
lemma writeRetryLoop_conn_success (attempts : ℕ → WriteAttempt) :
    ∀ (k fuel start slept : ℕ),
      (∀ j, j < k → attempts (start + j) = .connError) →
      attempts (start + k) = .success → k < fuel →
      writeRetryLoop attempts fuel start slept =
        .ok (start + k) (slept + k * RETRY_SLEEP_SECONDS) := by
  intro k
  induction k with
  | zero =>
    intro fuel start slept h1 h2 h3
    cases fuel with
    | zero => omega
    | succ fuel =>
      unfold writeRetryLoop
      rw [Nat.add_zero] at h2
      rw [h2]
      simp
  | succ k ih =>
    intro fuel start slept h1 h2 h3
    cases fuel with
    | zero => omega
    | succ fuel =>
      have h0 : attempts start = .connError := by
        have := h1 0 (by omega)
        simpa using this
      unfold writeRetryLoop
      rw [h0]
      have hrec := ih fuel (start + 1) (slept + RETRY_SLEEP_SECONDS)
        (fun j hj => by
          have := h1 (j + 1) (by omega)
          have harg : start + 1 + j = start + (j + 1) := by omega
          rw [harg]
          exact this)
        (by
          have harg : start + 1 + k = start + (k + 1) := by omega
          rw [harg]
          exact h2)
        (by omega)
      rw [hrec]
      have e1 : start + 1 + k = start + (k + 1) := by omega
      have e2 : slept + RETRY_SLEEP_SECONDS + k * RETRY_SLEEP_SECONDS =
          slept + (k + 1) * RETRY_SLEEP_SECONDS := by ring
      rw [e1, e2]

/-- Running the retry loop from attempt `start`: `k` consecutive
connection errors followed by any non-connection failure raise
`RuntimeError`. -/
lemma writeRetryLoop_conn_fatal (attempts : ℕ → WriteAttempt) :
    ∀ (k fuel start slept : ℕ),
      (∀ j, j < k → attempts (start + j) = .connError) →
      (attempts (start + k) = .otherError ∨ attempts (start + k) = .writeFalse) →
      k < fuel →
      writeRetryLoop attempts fuel start slept = .fatal := by
  intro k
  induction k with
  | zero =>
    intro fuel start slept h1 h2 h3
    cases fuel with
    | zero => omega
    | succ fuel =>
      unfold writeRetryLoop
      rw [Nat.add_zero] at h2
      rcases h2 with h2 | h2 <;> rw [h2]
  | succ k ih =>
    intro fuel start slept h1 h2 h3
    cases fuel with
    | zero => omega
    | succ fuel =>
      have h0 : attempts start = .connError := by
        have := h1 0 (by omega)
        simpa using this
      unfold writeRetryLoop
      rw [h0]
      exact ih fuel (start + 1) (slept + RETRY_SLEEP_SECONDS)
        (fun j hj => by
          have := h1 (j + 1) (by omega)
          have harg : start + 1 + j = start + (j + 1) := by omega
          rw [harg]
          exact this)
        (by
          have harg : start + 1 + k = start + (k + 1) := by omega
          rw [harg]
          exact h2)
        (by omega)

/-- Under persistent connection errors the retry loop neither returns
nor raises, however long it is observed. -/
lemma writeRetryLoop_all_conn (attempts : ℕ → WriteAttempt) :
    ∀ (fuel start slept : ℕ), (∀ j, attempts j = .connError) →
      writeRetryLoop attempts fuel start slept = .retrying := by
  intro fuel
  induction fuel with
  | zero => intro start slept _; rfl
  | succ fuel ih =>
    intro start slept h
    unfold writeRetryLoop
    rw [h start]
    exact ih (start + 1) (slept + RETRY_SLEEP_SECONDS) h

/-- The retry loop returns normally only on an attempt whose write
succeeded. -/
lemma writeRetryLoop_ok_success (attempts : ℕ → WriteAttempt) :
    ∀ (fuel start slept n m : ℕ),
      writeRetryLoop attempts fuel start slept = .ok n m → attempts n = .success := by
  intro fuel
  induction fuel with
  | zero => intro start slept n m h; simp [writeRetryLoop] at h
  | succ fuel ih =>
    intro start slept n m h
    unfold writeRetryLoop at h
    cases ha : attempts start with
    | success =>
      rw [ha] at h
      simp at h
      obtain ⟨hn, -⟩ := h
      rw [← hn]
      exact ha
    | connError =>
      rw [ha] at h
      exact ih (start + 1) (slept + RETRY_SLEEP_SECONDS) n m h
    | otherError => rw [ha] at h; simp at h
    | writeFalse => rw [ha] at h; simp at h

/-! ## Claim theorems -/

/-- Claim C1, counterexample.  The claim states that when no rate window
qualifies (every `startOfDay` is strictly after the reading's
time-of-day), the selection falls back to the **last** window in the
list.  On `C1def` (windows at 01:00:00 and 02:00:00) and a reading at
time 0 (time-of-day 0), both windows start strictly later, yet the state
stored by `process_tariff` carries `rateid` `"r0"` — the **first**
window — while the final element of the rates list has `rateid`
`"r1"`. -/
theorem C1_counterexample :
    timeOfDay 0 = 0 ∧
    parseStart "01:00:00" = some 3600 ∧ parseStart "02:00:00" = some 7200 ∧
    (process_tariff C1def 0 1).map LastTariff.rateid = some "r0" ∧
    (C1def.rate.getLast?).map RateEntry.rateid = some "r1" ∧
    ("r0" : String) ≠ "r1" := by decide

/-- Claim C1, amended.  For every tariff definition whose rate windows
all parse and all have `startOfDay` strictly greater than the reading's
time-of-day, the rate selection falls through the reverse loop and the
state stored into `LastTariffState` comes from the **first** element of
the rates list (the Python loop variable ends at index 0), not the last:
rate, tariff label, tax and rateId are all taken from that first
window. -/
theorem C1_amended_thm (t : TariffDef) (time : ℤ) (reading : ℚ)
    (hne : t.rate ≠ [])
    (hall : ∀ e ∈ t.rate, (parseTax e.tax).isSome ∧
        windowStartsAfter (timeOfDay time) e = true) :
    ∃ e0 tx, t.rate[0]? = some e0 ∧ parseTax e0.tax = some tx ∧
      process_tariff t time reading = some
        { time := time, reading := reading, read_at := time,
          rate := e0.amount / 3600 * tx,
          tariff := (e0.amount, e0.unit), tax := e0.tax,
          type := t.type, name := t.name, rateid := e0.rateid } := by
  have hlen : 0 < t.rate.length := List.length_pos.mpr hne
  obtain ⟨e0, tx, he0, htx, hsel⟩ := selectLoop_all_late t.rate (timeOfDay time)
    (t.rate.length - 1) (by omega)
    (fun j hj e hje => hall e (List.getElem?_mem hje))
  exact ⟨e0, tx, he0, htx, by simp [process_tariff, hsel, he0]⟩

/-- Claim C1, witness: the amended theorem applied to `C1def` and a
reading at time 0. -/
theorem C1_witness :
    ∃ e0 tx, C1def.rate[0]? = some e0 ∧ parseTax e0.tax = some tx ∧
      process_tariff C1def 0 1 = some
        { time := 0, reading := 1, read_at := 0,
          rate := e0.amount / 3600 * tx,
          tariff := (e0.amount, e0.unit), tax := e0.tax,
          type := C1def.type, name := C1def.name, rateid := e0.rateid } :=
  C1_amended_thm C1def 0 1 (by decide) (by decide)

/-- Claim C2.  With stored state `lt` for the reading's meter id, the
charge computed by `write_tariff` has amount
`abs(reading / 1000 * lt.rate * ((time - lt.read_at) / 1000))` and is
emitted exactly when that amount is positive; and in the spec's concrete
scenario (one window starting 00:00:00 with amount 10 and tax 20%,
readings 1000 at t = 0 ms then 2000 at t = 3600000 ms) the first call
emits nothing and the second call emits amount 24. -/
theorem C2_thm :
    (∀ (defs : List TariffDef) (st : TariffState) (kw : Reading) (lt : LastTariff),
      st kw.id = some lt →
      (chargeOf lt kw).amount =
        |kw.reading / 1000 * lt.rate * (((kw.time : ℚ) - (lt.read_at : ℚ)) / 1000)| ∧
      (write_tariff defs st kw).1 =
        if 0 < (chargeOf lt kw).amount then some (chargeOf lt kw) else none) ∧
    ((write_tariff C2defs emptyState C2r1).1 = none ∧
     (write_tariff C2defs emptyState C2r1).2.map
       (fun st1 => (write_tariff C2defs st1 C2r2).1.map Charge.amount) = some (some 24)) := by
  refine ⟨fun defs st kw lt h => ⟨rfl, by simp [write_tariff, emittedCharge, h]⟩, ?_, ?_⟩
  · simp [write_tariff, emittedCharge, emptyState, C2r1]
  · simp +decide [write_tariff, emittedCharge, chargeOf, routeUpdates, routeStep, policyApplies,
      process_tariff, selectLoop, parseTax, parseStart, parseDecimalChars, parseUDecimal,
      parseNatChars, parseIntChars, digitsValAux, splitOnChar, stripPercent, timeOfDay,
      C2defs, C2r1, C2r2, emptyState, Function.update, List.foldlM]
    norm_num

/-- Claim C2, witness: the general charge formula applied to the state
stored by the scenario's first reading and the scenario's second
reading. -/
theorem C2_witness :
    (chargeOf C2lt C2r2).amount =
      |C2r2.reading / 1000 * C2lt.rate * (((C2r2.time : ℚ) - (C2lt.read_at : ℚ)) / 1000)| ∧
    (write_tariff C2defs C2st C2r2).1 =
      if 0 < (chargeOf C2lt C2r2).amount then some (chargeOf C2lt C2r2) else none :=
  C2_thm.1 C2defs C2st C2r2 C2lt (by simp [C2st, C2r2])

/-- Claim C3, counterexample.  The claim states that a reading whose sign
is incompatible with the definition's `meterValuesPolicy` triggers no
charge emission and no state update.  With the `"positive"`-policy
definition `C3defs` and stored state `C3st` (itself produced by the code
from the earlier positive reading `C3pos`), the negative reading `C3neg`
fails the policy — yet `write_tariff` still emits a charge of amount 2
from the stored state, because emission precedes the policy filter.  The
state is indeed left unchanged. -/
theorem C3_counterexample :
    policyApplies "positive" (-2000 : ℚ) = false ∧
    (write_tariff C3defs C3st C3neg).1.map Charge.amount = some 2 ∧
    (write_tariff C3defs C3st C3neg).2 = some C3st ∧
    (write_tariff C3defs emptyState C3pos).2.map (fun st => st "m") = some (some C3lt) := by
  refine ⟨by decide, ?_, ?_, ?_⟩
  · simp +decide [write_tariff, emittedCharge, chargeOf, C3st, C3lt, C3neg]
    norm_num
  · simp +decide [write_tariff, routeUpdates, routeStep, policyApplies, C3defs, C3neg,
      List.foldlM]
  · simp +decide [write_tariff, routeUpdates, routeStep, policyApplies, process_tariff,
      selectLoop, parseTax, parseStart, parseDecimalChars, parseUDecimal, parseNatChars,
      parseIntChars, digitsValAux, splitOnChar, stripPercent, timeOfDay, C3defs, C3pos,
      C3lt, emptyState, Function.update, List.foldlM]

/-- Claim C3, amended.  A reading whose sign fails every matching
definition's `meterValuesPolicy` causes no `LastTariffState` update
(`process_tariff` is never invoked, the state table is returned
unchanged); a `MeterTariffCharge` may nevertheless still be emitted from
the previously stored state, since emission happens before the policy
filter. -/
theorem C3_amended_thm (defs : List TariffDef) (st : TariffState) (kw : Reading)
    (hpol : ∀ d ∈ defs, d.meterId = kw.id → d.source = kw.source →
        policyApplies d.meterValues kw.reading = false) :
    (write_tariff defs st kw).2 = some st := by
  show routeUpdates defs st kw = some st
  unfold routeUpdates
  apply foldlM_routeStep_skip
  intro d hd
  rw [List.mem_filter] at hd
  obtain ⟨hmem, hcond⟩ := hd
  have hc := of_decide_eq_true hcond
  exact hpol d hmem hc.1 hc.2

/-- Claim C3, witness: the amended theorem applied to `C3defs`, `C3st`
and the policy-violating reading `C3neg`. -/
theorem C3_witness : (write_tariff C3defs C3st C3neg).2 = some C3st :=
  C3_amended_thm C3defs C3st C3neg (by decide)

/-- Claim C4.  An out-of-order reading (`C4out`, 1000 ms, strictly before
the stored `read_at` of 2000 ms) with nonzero reading and nonzero stored
rate makes `write_tariff` emit a charge of strictly positive amount 1 —
the `abs()` turns the negative delta into a spurious positive charge —
while the duplicate reading `C4dup` (zero delta) emits nothing. -/
theorem C4_thm :
    C4out.time < C4lt.read_at ∧ C4out.reading ≠ 0 ∧ C4lt.rate ≠ 0 ∧
    (write_tariff [] C4st C4out).1.map Charge.amount = some 1 ∧ (0 : ℚ) < 1 ∧
    (write_tariff [] C4st C4dup).1 = none := by
  refine ⟨by decide, by norm_num [C4out], by norm_num [C4lt], ?_, by norm_num, ?_⟩
  · simp +decide [write_tariff, emittedCharge, chargeOf, C4st, C4lt, C4out]
    norm_num
  · simp +decide [write_tariff, emittedCharge, chargeOf, C4st, C4lt, C4dup]

/-- Claim C5.  For rate windows sorted ascending by `startOfDay` (all
parsed), the window at the index `k` returned by the selection loop
admits no other window strictly between its start and the reading's
time-of-day: there is no `j` with `start k < start j <= timeOfDay`. -/
theorem C5_thm (rates : List RateEntry) (time : ℤ) (k : ℕ) (r : ℚ)
    (hsorted : List.Pairwise (fun a b => rateLE a b = true) rates)
    (hsel : selectLoop rates (timeOfDay time) (rates.length - 1) = some (k, r)) :
    ∀ ek : RateEntry, rates[k]? = some ek → ∀ sk, parseStart ek.start = some sk →
    ∀ (j : ℕ) (e : RateEntry), rates[j]? = some e → ∀ sj, parseStart e.start = some sj →
      ¬(sk < sj ∧ sj ≤ timeOfDay time) := by
  intro ek hek sk hsk j e hje sj hsj
  rintro ⟨hlt, hle⟩
  obtain ⟨hki, hclause⟩ :=
    selectLoop_break_spec rates (timeOfDay time) (rates.length - 1) k r hsel
  obtain ⟨hkn, hekv⟩ := List.getElem?_eq_some.mp hek
  obtain ⟨hjn, hjev⟩ := List.getElem?_eq_some.mp hje
  rcases lt_trichotomy j k with hjk | hjk | hjk
  · have hR := List.pairwise_iff_getElem.mp hsorted j k hjn hkn hjk
    rw [hjev, hekv] at hR
    simp only [rateLE, hsj, hsk, decide_eq_true_eq] at hR
    omega
  · subst hjk
    rw [hek] at hje
    cases hje
    rw [hsk] at hsj
    cases hsj
    omega
  · have := hclause j hjk (by omega) e hje sj hsj
    omega

/-- Claim C5, witness: on the sorted windows `C5rates` and a reading at
06:00 the loop selects the midnight window, and the 12:00:00 window
(start 43200) does not lie in the excluded interval. -/
theorem C5_witness :
    ¬((0 : ℤ) < 43200 ∧ (43200 : ℤ) ≤ timeOfDay 21600000) :=
  C5_thm C5rates 21600000 0 (1 / 3600 * (1 + 0 / 100)) (by decide)
    (by simp +decide [selectLoop, parseTax, parseStart, parseDecimalChars, parseUDecimal,
      parseNatChars, parseIntChars, digitsValAux, splitOnChar, stripPercent, timeOfDay, C5rates])
    { start := "00:00:00", amount := 1, tax := "0%", unit := "kWh", rateid := "r0" }
    (by decide) 0 (by decide)
    1 { start := "12:00:00", amount := 2, tax := "0%", unit := "kWh", rateid := "r1" }
    (by decide) 43200 (by decide)

/-- Claim C6.  The first reading ever processed for a meter id (no
`LastTariffState` entry) emits no charge, and the tariff loop writes no
state key other than that meter id. -/
theorem C6_thm (defs : List TariffDef) (st : TariffState) (kw : Reading)
    (h : st kw.id = none) :
    (write_tariff defs st kw).1 = none ∧
    ∀ st2, (write_tariff defs st kw).2 = some st2 → ∀ k, k ≠ kw.id → st2 k = st k := by
  constructor
  · simp [write_tariff, emittedCharge, h]
  · intro st2 h2 k hk
    exact foldlM_routeStep_offkey kw _ st st2 h2 k hk

/-- Claim C6, witness: the first scenario reading against the empty state
emits no charge. -/
theorem C6_witness : (write_tariff C2defs emptyState C2r1).1 = none :=
  (C6_thm C2defs emptyState C2r1 rfl).1

/-- Claim C7, counterexample.  The claim states that a malformed rate
start string is rejected at configuration load and never raises at call
time.  The configuration `C7cfg`, whose tariff contains the window
`"bogus"`, passes every load-time check (`configLoadOk` is true), while
the per-reading computation `process_tariff` raises (returns `none`) at
call time. -/
theorem C7_counterexample :
    configLoadOk C7cfg = true ∧ parseStart "bogus" = none ∧
    process_tariff C7badDef 0 1000 = none := by decide

/-- Claim C7, amended.  The load-time configuration checks never examine
tariff rate windows — `configLoadOk` is invariant under replacing the
tariff list — and a tariff whose last rate window has a malformed start
string makes the per-reading computation raise at call time, for every
reading. -/
theorem C7_amended_thm (cfg : Config) (t1 t2 : List TariffDef)
    (t : TariffDef) (time : ℤ) (reading : ℚ) (e : RateEntry)
    (hlast : t.rate.getLast? = some e) (hbad : parseStart e.start = none) :
    configLoadOk { cfg with tariff := t1 } = configLoadOk { cfg with tariff := t2 } ∧
    process_tariff t time reading = none := by
  refine ⟨rfl, ?_⟩
  rw [List.getLast?_eq_getElem?] at hlast
  unfold process_tariff
  rw [selectLoop_top_bad t.rate (timeOfDay time) (t.rate.length - 1) e hlast hbad]
  rfl

/-- Claim C7, witness: the amended theorem applied to `C7cfg` and the
malformed window `C7badEntry`. -/
theorem C7_witness :
    configLoadOk { C7cfg with tariff := [] } =
      configLoadOk { C7cfg with tariff := [C7badDef] } ∧
    process_tariff C7badDef 5 2 = none :=
  C7_amended_thm C7cfg [] [C7badDef] C7badDef 5 2 C7badEntry (by decide) (by decide)

/-- Claim C8.  The sink write retry loop (shared by
`Database.write_meter_reading` and `Database.write_meter_tariff`):
(1) after any run of connection errors a successful attempt returns
normally, with one fixed-length sleep per retry and the record never
dropped; (2) a non-connection failure (exception or a `False` write
return) raises to the caller; (3) under persistent connection errors the
loop retries indefinitely, never returning and never raising; (4) a
normal return only ever happens on an attempt whose write succeeded. -/
theorem C8_thm :
    (∀ (attempts : ℕ → WriteAttempt) (k fuel : ℕ),
      (∀ j, j < k → attempts j = .connError) → attempts k = .success → k < fuel →
      writeRetryLoop attempts fuel 0 0 = .ok k (k * RETRY_SLEEP_SECONDS)) ∧
    (∀ (attempts : ℕ → WriteAttempt) (k fuel : ℕ),
      (∀ j, j < k → attempts j = .connError) →
      (attempts k = .otherError ∨ attempts k = .writeFalse) → k < fuel →
      writeRetryLoop attempts fuel 0 0 = .fatal) ∧
    (∀ (attempts : ℕ → WriteAttempt) (fuel : ℕ),
      (∀ j, attempts j = .connError) → writeRetryLoop attempts fuel 0 0 = .retrying) ∧
    (∀ (attempts : ℕ → WriteAttempt) (fuel n m : ℕ),
      writeRetryLoop attempts fuel 0 0 = .ok n m → attempts n = .success) := by
  refine ⟨?_, ?_, ?_, ?_⟩
  · intro attempts k fuel h1 h2 h3
    have := writeRetryLoop_conn_success attempts k fuel 0 0
      (fun j hj => by simpa using h1 j hj) (by simpa using h2) h3
    simpa using this
  · intro attempts k fuel h1 h2 h3
    exact writeRetryLoop_conn_fatal attempts k fuel 0 0
      (fun j hj => by simpa using h1 j hj) (by simpa using h2) h3
  · intro attempts fuel h
    exact writeRetryLoop_all_conn attempts fuel 0 0 h
  · intro attempts fuel n m h
    exact writeRetryLoop_ok_success attempts fuel 0 0 n m h

/-- Claim C8, witness: two connection errors followed by a success return
normally on the third attempt after two fixed sleeps. -/
theorem C8_witness :
    writeRetryLoop (fun n => if n < 2 then .connError else .success) 5 0 0 =
      .ok 2 (2 * RETRY_SLEEP_SECONDS) :=
  C8_thm.1 (fun n => if n < 2 then .connError else .success) 2 5
    (fun j hj => by simp [hj]) (by norm_num) (by omega)

/-- Claim C9.  With the queue-depth threshold at its default of 1000, a
queue holding at least 1001 entries makes the supervisor's monitoring
tick report an overflow (exiting the loop), after which every started
module thread still running is a shutdown target (terminate is set and
the thread joined); and pushes onto the unbounded queue always succeed —
producers never block. -/
theorem C9_thm (queues : List (String × ℕ)) (started running : List String)
    (q : String × ℕ) (hq : q ∈ queues) (hsize : 1001 ≤ q.2) :
    defaultMaxQueueSize none = 1000 ∧
    (∃ names, monitorTick queues (defaultMaxQueueSize none) started running =
        .overflow names ∧ names ≠ []) ∧
    (∀ t ∈ started, t ∈ running → t ∈ shutdownTargets started running) ∧
    (∀ (pending incoming : List (String × ℕ)),
      (queuePushAll pending incoming).length = pending.length + incoming.length) := by
  have hmem : q.1 ∈ oversizeQueues queues (defaultMaxQueueSize none) := by
    unfold oversizeQueues defaultMaxQueueSize
    simp only [List.mem_map, List.mem_filter]
    exact ⟨q, ⟨hq, by simp; omega⟩, rfl⟩
  have hne : oversizeQueues queues (defaultMaxQueueSize none) ≠ [] :=
    List.ne_nil_of_mem hmem
  refine ⟨rfl, ⟨oversizeQueues queues (defaultMaxQueueSize none), ?_, hne⟩, ?_, ?_⟩
  · unfold monitorTick
    rw [if_pos hne]
  · intro t ht hr
    unfold shutdownTargets
    rw [List.mem_filter]
    exact ⟨hr, by simpa using ht⟩
  · intro pending incoming
    simp [queuePushAll]

/-- Claim C9, witness: a queue at depth 1001 with two started and running
modules. -/
theorem C9_witness :
    defaultMaxQueueSize none = 1000 ∧
    (∃ names, monitorTick [("influx", 1001)] (defaultMaxQueueSize none) ["influx", "goodwe"]
        ["influx", "goodwe"] = .overflow names ∧ names ≠ []) ∧
    (∀ t ∈ ["influx", "goodwe"], t ∈ (["influx", "goodwe"] : List String) →
      t ∈ shutdownTargets ["influx", "goodwe"] ["influx", "goodwe"]) ∧
    (∀ (pending incoming : List (String × ℕ)),
      (queuePushAll pending incoming).length = pending.length + incoming.length) :=
  C9_thm [("influx", 1001)] ["influx", "goodwe"] ["influx", "goodwe"]
    ("influx", 1001) (by simp) (by norm_num)

/-- Claim C10.  For every byte buffer whose sum is below 65536,
`append_crc` lengthens the buffer by exactly two bytes, the data part of
the frame is the original buffer, and the receiver's verification
equation `frame[n-2] * 256 + frame[n-1] == calculate_crc(frame[0:n-2])`
holds at `n` the length of the frame: CRC generation and verification
round-trip. -/
theorem C10_thm (buffer : List ℕ) (h : calculate_crc buffer < 65536) :
    ∃ frame, append_crc buffer = some frame ∧
      frame.length = buffer.length + 2 ∧
      frame.take (frame.length - 2) = buffer ∧
      crcEquationHolds frame frame.length = true := by
  refine ⟨buffer ++ [calculate_crc buffer / 256, calculate_crc buffer % 256], ?_, ?_, ?_, ?_⟩
  · simp [append_crc, toBytes2BE, h]
  · simp
  · have h2 : (buffer ++ [calculate_crc buffer / 256, calculate_crc buffer % 256]).length - 2 =
        buffer.length := by simp
    rw [h2]
    exact List.take_left buffer _
  · have h2 : (buffer ++ [calculate_crc buffer / 256, calculate_crc buffer % 256]).length - 2 =
        buffer.length := by simp
    have h1 : (buffer ++ [calculate_crc buffer / 256, calculate_crc buffer % 256]).length - 1 =
        buffer.length + 1 := by simp
    unfold crcEquationHolds
    rw [h2, h1]
    rw [List.getD_append_right buffer _ 0 buffer.length le_rfl]
    rw [List.getD_append_right buffer _ 0 (buffer.length + 1) (by omega)]
    rw [List.take_left buffer _]
    simp only [Nat.sub_self, Nat.add_sub_cancel_left, List.getD_cons_zero,
      List.getD_cons_succ, beq_iff_eq]
    omega

/-- Claim C10, witness: the round-trip at the concrete buffer
`[170, 85, 3, 1]` (sum 259). -/
theorem C10_witness :
    ∃ frame, append_crc [170, 85, 3, 1] = some frame ∧
      frame.length = ([170, 85, 3, 1] : List ℕ).length + 2 ∧
      frame.take (frame.length - 2) = [170, 85, 3, 1] ∧
      crcEquationHolds frame frame.length = true :=
  C10_thm [170, 85, 3, 1] (by decide)

end Energy
